import Mathlib

/-!
# gomerchant — Stripe gateway adapter

A shallow embedding of `gateways/stripe/stripe.go` and
`gateways/stripe/credit_card.go`.

* Go pointers (`*T`) are `Option T`; a Go `(value, error)` pair is a pair whose
  second component is `Option Error` (`none` is the nil error).
* The stripe-go SDK is the outside world.  It is a parameter, `stripe.Provider`:
  one response function per SDK entry point the adapter calls.  Every adapter
  operation returns, next to its Go result, the list of SDK requests it sent,
  in the order it sent them.
* Machine integers are `Nat`/`Int` with explicit wrap-around; `uint` and `int`
  are taken to be 64 bits wide (amd64/arm64).
-/

/-! ## Machine integers -/

/-- Wrap a natural number to the range of Go's `uint64` (and 64-bit `uint`). -/
def uint64 (n : Nat) : Nat := n % 2 ^ 64

/-- Wrap an integer to the range of Go's `int64` (and 64-bit `int`): the
two's-complement value Go's arithmetic and integer conversions produce. -/
def int64 (z : Int) : Int := (z + 2 ^ 63) % 2 ^ 64 - 2 ^ 63

/-! ## The common data model (package `gomerchant`) -/

namespace gomerchant

/-- Modelled from the spec: the declaration of the params bag is missing from the
sources; §3 describes it as a mapping of string keys to opaque values. -/
abbrev Params := List (String × String)

/-- Modelled from the spec: the error taxonomy of §4.5.  The adapter code never
builds an error value itself; it only passes on what the SDK returned. -/
inductive Error where
  | ErrInvalidRequest
  | ErrUnsupported
  | ErrTransport
  | ErrProvider (code : String)
  | ErrProtocol
deriving DecidableEq, Repr

/-- Modelled from the spec: the declaration of `gomerchant.CreditCard` is missing;
the fields are those `toStripeToken` reads (§3 CreditCard). -/
structure CreditCard where
  Name : String
  Number : String
  ExpMonth : Nat
  ExpYear : Nat
  CVC : String
deriving DecidableEq, Repr

/-- Modelled from the spec: the declaration of `gomerchant.SavedCreditCard` is
missing; the fields are those `Authorize` reads (§3 SavedCreditCard). -/
structure SavedCreditCard where
  CustomerID : String
  CreditCardID : String
deriving DecidableEq, Repr

/-- Modelled from the spec: the declaration of `gomerchant.PaymentMethod` is
missing; two pointers, as `Authorize` tests both against nil. -/
structure PaymentMethod where
  CreditCard : Option CreditCard
  SavedCreditCard : Option SavedCreditCard
deriving DecidableEq, Repr

/-- Modelled from the spec: the declaration of `gomerchant.Address` is missing;
the fields are those `toStripeToken` reads (§3 Address). -/
structure Address where
  Address1 : String
  Address2 : String
  City : String
  State : String
  ZIP : String
  Country : String
deriving DecidableEq, Repr

/-- Modelled from the spec: the declaration of `gomerchant.AuthorizeParams` is
missing; the fields are those `Authorize` reads. -/
structure AuthorizeParams where
  Currency : String
  OrderID : String
  Description : String
  Customer : String
  BillingAddress : Option Address
  PaymentMethod : Option PaymentMethod
  Params : Params := []
deriving DecidableEq, Repr

/-- Modelled from the spec: request shape of CompleteAuthorize (a params bag). -/
structure CompleteAuthorizeParams where
  Params : Params := []
deriving DecidableEq, Repr

/-- Modelled from the spec: request shape of Capture (a params bag). -/
structure CaptureParams where
  Params : Params := []
deriving DecidableEq, Repr

/-- Modelled from the spec: request shape of Refund (a params bag). -/
structure RefundParams where
  Params : Params := []
deriving DecidableEq, Repr

/-- Modelled from the spec: request shape of Void (a params bag). -/
structure VoidParams where
  Params : Params := []
deriving DecidableEq, Repr

/-- Modelled from the spec: request shape of ListCreditCards. -/
structure ListCreditCardsParams where
  CustomerID : String
deriving DecidableEq, Repr

/-- Modelled from the spec: the response envelope of Authorize (§3): the
transaction-id and an echoed params bag.  `{}` is Go's zero value. -/
structure AuthorizeResponse where
  TransactionID : String := ""
  Params : Params := []
deriving DecidableEq, Repr

/-- Modelled from the spec: the response envelope of CompleteAuthorize. -/
structure CompleteAuthorizeResponse where
  TransactionID : String := ""
  Params : Params := []
deriving DecidableEq, Repr

/-- Modelled from the spec: the response envelope of Capture. -/
structure CaptureResponse where
  TransactionID : String := ""
  Params : Params := []
deriving DecidableEq, Repr

/-- Modelled from the spec: the response envelope of Refund. -/
structure RefundResponse where
  TransactionID : String := ""
  Params : Params := []
deriving DecidableEq, Repr

/-- Modelled from the spec: the response envelope of Void. -/
structure VoidResponse where
  TransactionID : String := ""
  Params : Params := []
deriving DecidableEq, Repr

/-- Modelled from the spec: the declaration of `gomerchant.Transaction` is
missing; the fields are those `Query` fills (§3 Transaction).  `CreatedAt` is a
pointer to a time, kept as Unix seconds. -/
structure Transaction where
  ID : String
  Amount : Int
  Currency : String
  Captured : Bool
  Paid : Bool
  Cancelled : Bool
  Status : String
  CreatedAt : Option Int
deriving DecidableEq, Repr

/-- Modelled from the spec: the declaration of `gomerchant.CustomerCreditCard` is
missing; the fields are those `ListCreditCards` fills. -/
structure CustomerCreditCard where
  CustomerName : String
  CustomerID : String := ""
  CreditCardID : String
  MaskedNumber : String
  ExpMonth : Nat
  ExpYear : Nat
  Brand : String
deriving DecidableEq, Repr

/-- Modelled from the spec: the response of ListCreditCards, a slice of
pointers to descriptors. -/
structure ListCreditCardsResponse where
  CreditCards : List CustomerCreditCard := []
deriving DecidableEq, Repr

end gomerchant

/-! ## The SDK (package `stripe`, external) -/

namespace stripe

/-- The SDK's card parameters, restricted to the fields `toStripeToken` sets. -/
structure CardParams where
  Name : Option String := none
  Number : Option String := none
  ExpMonth : Option String := none
  ExpYear : Option String := none
  CVC : Option String := none
  Customer : Option String := none
  AddressLine1 : Option String := none
  AddressLine2 : Option String := none
  AddressCity : Option String := none
  AddressState : Option String := none
  AddressZip : Option String := none
  AddressCountry : Option String := none
deriving DecidableEq, Repr

/-- The SDK's token parameters. -/
structure TokenParams where
  Card : Option CardParams := none
  Customer : Option String := none
deriving DecidableEq, Repr

/-- The SDK's token record; only its id is read. -/
structure Token where
  ID : String := ""
deriving DecidableEq, Repr

/-- The SDK's source parameters; only the token field is used. -/
structure SourceParams where
  Token : Option String := none
deriving DecidableEq, Repr

/-- The SDK's charge parameters. -/
structure ChargeParams where
  Amount : Option Int := none
  Currency : Option String := none
  Description : Option String := none
  Customer : Option String := none
  Source : Option SourceParams := none
  Metadata : List (String × String) := []
deriving DecidableEq, Repr

/-- The SDK's `AddMetadata`: set one key of the metadata map. -/
def ChargeParams.AddMetadata (p : ChargeParams) (key value : String) : ChargeParams :=
  { p with Metadata := (key, value) :: p.Metadata.filter (fun e => e.1 != key) }

/-- The SDK's `SetSource` at a string argument: the string becomes the source's
token. -/
def ChargeParams.SetSource (p : ChargeParams) (sp : String) : ChargeParams :=
  { p with Source := some { Token := some sp } }

/-- The SDK's capture parameters. -/
structure CaptureParams where
  Amount : Option Int := none
deriving DecidableEq, Repr

/-- The SDK's refund parameters. -/
structure RefundParams where
  Charge : Option String := none
  Amount : Option Int := none
deriving DecidableEq, Repr

/-- The SDK's card-list parameters. -/
structure CardListParams where
  Customer : Option String := none
deriving DecidableEq, Repr

/-- The SDK's charge record, restricted to the fields `Query` and `Authorize`
read.  `Amount`, `AmountRefunded` and `Created` are `int64`. -/
structure Charge where
  ID : String := ""
  Amount : Int := 0
  AmountRefunded : Int := 0
  Currency : String := ""
  Captured : Bool := false
  Paid : Bool := false
  Refunded : Bool := false
  Status : String := ""
  Created : Int := 0
deriving DecidableEq, Repr

/-- The SDK's customer record; only its id is read. -/
structure Customer where
  ID : String := ""
deriving DecidableEq, Repr

/-- The SDK's card record, restricted to the fields the adapter reads.
`ExpMonth` is a `uint8` and `ExpYear` a `uint16` in the SDK. -/
structure Card where
  Name : String := ""
  ID : String := ""
  Last4 : String := ""
  ExpMonth : Nat := 0
  ExpYear : Nat := 0
  Brand : String := ""
  Customer : Option Customer := none
deriving DecidableEq, Repr

/-- A request the adapter sends to the SDK. -/
inductive Request where
  | tokenNew (params : TokenParams)
  | chargeNew (params : ChargeParams)
  | chargeGet (id : String)
  | chargeCapture (id : String) (params : Option CaptureParams)
  | refundNew (params : RefundParams)
  | cardList (params : CardListParams)
deriving DecidableEq, Repr

/-- The outcomes of the SDK calls.  `token.New` and `charge.Get` return a record
the adapter dereferences without a nil test, so they return a record;
`charge.New` returns a pointer the adapter tests against nil.  The records
returned by `charge.Capture` and `refund.New` are discarded by the adapter, so
only their error is kept.  `card.List` returns an iterator: the cards it yields
and the error it ends with. -/
structure Provider where
  tokenNew : TokenParams → Token × Option gomerchant.Error
  chargeNew : ChargeParams → Option Charge × Option gomerchant.Error
  chargeGet : String → Charge × Option gomerchant.Error
  chargeCapture : String → Option CaptureParams → Option gomerchant.Error
  refundNew : RefundParams → Option gomerchant.Error
  cardList : CardListParams → List Card × Option gomerchant.Error

end stripe

/-! ## The adapter (`type Stripe`) -/

namespace Stripe

open gomerchant

/-- The token parameters `toStripeToken` builds before it calls `token.New`. -/
def toStripeTokenParams (customer : String) (cc : CreditCard)
    (billingAddress : Option Address) : stripe.TokenParams :=
  let expMonth := toString cc.ExpMonth
  let expYear := toString cc.ExpYear
  let cp : stripe.CardParams :=
    { Name := some cc.Name, Number := some cc.Number, ExpMonth := some expMonth,
      ExpYear := some expYear, CVC := some cc.CVC }
  let addCustomer := customer.length > 0
  let cp := if addCustomer then { cp with Customer := some customer } else cp
  let cp :=
    match billingAddress with
    | some billingAddress =>
      let cp := { cp with AddressLine1 := some billingAddress.Address1 }
      let cp := { cp with AddressLine1 := some billingAddress.Address2 }
      let cp := { cp with AddressCity := some billingAddress.City }
      let cp := { cp with AddressState := some billingAddress.State }
      let cp := { cp with AddressZip := some billingAddress.ZIP }
      { cp with AddressCountry := some billingAddress.Country }
    | none => cp
  let params : stripe.TokenParams := { Card := some cp }
  if addCustomer then { params with Customer := some customer } else params

/-- `toStripeToken` creates a stripe token for the supplied card. -/
def toStripeToken (p : stripe.Provider) (customer : String) (cc : CreditCard)
    (billingAddress : Option Address) :
    (stripe.Token × Option Error) × List stripe.Request :=
  let params := toStripeTokenParams customer cc billingAddress
  (p.tokenNew params, [stripe.Request.tokenNew params])

/-- The `if params.PaymentMethod.SavedCreditCard != nil` block of `Authorize`. -/
def authorizeSavedCreditCard (pm : PaymentMethod) (chargeParams : stripe.ChargeParams) :
    stripe.ChargeParams :=
  match pm.SavedCreditCard with
  | some saved =>
    let chargeParams :=
      if saved.CustomerID.length > 0 then
        { chargeParams with Customer := some saved.CustomerID }
      else chargeParams
    chargeParams.SetSource saved.CreditCardID
  | none => chargeParams

/-- The tail of `Authorize`: `charge.New` and the two returns after it. -/
def authorizeCharge (p : stripe.Provider) (chargeParams : stripe.ChargeParams)
    (sent : List stripe.Request) :
    (AuthorizeResponse × Option Error) × List stripe.Request :=
  match p.chargeNew chargeParams with
  | (some charge, err) =>
    (({ TransactionID := charge.ID }, err), sent ++ [stripe.Request.chargeNew chargeParams])
  | (none, err) => (({}, err), sent ++ [stripe.Request.chargeNew chargeParams])

/-- `Authorize` authorizes a payment against the supplied card. -/
def Authorize (p : stripe.Provider) (amount : Nat) (params : AuthorizeParams) :
    (AuthorizeResponse × Option Error) × List stripe.Request :=
  let amount := uint64 (amount * 100)
  let int64Amount := int64 amount
  let chargeParams : stripe.ChargeParams :=
    { Amount := some int64Amount, Currency := some params.Currency,
      Description := some params.Description }
  let chargeParams := chargeParams.AddMetadata "order_id" params.OrderID
  match params.PaymentMethod with
  | some pm =>
    match pm.CreditCard with
    | some cc =>
      match toStripeToken p params.Customer cc params.BillingAddress with
      | ((_, some err), sent) => (({}, some err), sent)
      | ((t, none), sent) =>
        let chargeParams := { chargeParams with Source := some { Token := some t.ID } }
        authorizeCharge p (authorizeSavedCreditCard pm chargeParams) sent
    | none => authorizeCharge p (authorizeSavedCreditCard pm chargeParams) []
  | none => authorizeCharge p chargeParams []

/-- `CompleteAuthorize` completes the authorization for a charge. -/
def CompleteAuthorize (_p : stripe.Provider) (_paymentID : String)
    (_params : CompleteAuthorizeParams) :
    (CompleteAuthorizeResponse × Option Error) × List stripe.Request :=
  (({}, none), [])

/-- `Capture` performs the settlement process for a charge. -/
def Capture (p : stripe.Provider) (transactionID : String) (_params : CaptureParams) :
    (CaptureResponse × Option Error) × List stripe.Request :=
  let err := p.chargeCapture transactionID none
  (({ TransactionID := transactionID }, err), [stripe.Request.chargeCapture transactionID none])

/-- `Query` retrieves a charge transaction. -/
def Query (p : stripe.Provider) (transactionID : String) :
    (Transaction × Option Error) × List stripe.Request :=
  let (c, err) := p.chargeGet transactionID
  let created := c.Created
  let transaction : Transaction :=
    { ID := c.ID, Amount := int64 (c.Amount - c.AmountRefunded), Currency := c.Currency,
      Captured := c.Captured, Paid := c.Paid, Cancelled := c.Refunded, Status := c.Status,
      CreatedAt := some created }
  let transaction :=
    if transaction.Cancelled then { transaction with Paid := false, Captured := false }
    else transaction
  ((transaction, err), [stripe.Request.chargeGet transactionID])

/-- `Refund` refunds a prior charge transaction. -/
def Refund (p : stripe.Provider) (transactionID : String) (amount : Nat)
    (_params : RefundParams) : (RefundResponse × Option Error) × List stripe.Request :=
  match Query p transactionID with
  | ((transaction, err), sent) =>
    let amount := uint64 (amount * 100)
    match err with
    | none =>
      if transaction.Captured then
        let int64Amount := int64 amount
        let req : stripe.RefundParams :=
          { Charge := some transactionID, Amount := some int64Amount }
        (({ TransactionID := transactionID }, p.refundNew req),
          sent ++ [stripe.Request.refundNew req])
      else
        let int64Amount := int64 (int64 (transaction.Amount - int64 amount))
        let req : stripe.CaptureParams := { Amount := some int64Amount }
        (({ TransactionID := transactionID }, p.chargeCapture transactionID (some req)),
          sent ++ [stripe.Request.chargeCapture transactionID (some req)])
    | some e => (({ TransactionID := transactionID }, some e), sent)

/-- `Void` voids a prior charge transaction. -/
def Void (p : stripe.Provider) (transactionID : String) (_params : VoidParams) :
    (VoidResponse × Option Error) × List stripe.Request :=
  let refundParams : stripe.RefundParams := { Charge := some transactionID }
  let err := p.refundNew refundParams
  (({ TransactionID := transactionID }, err), [stripe.Request.refundNew refundParams])

/-- The descriptor one iteration of the loop of `ListCreditCards` builds. -/
def toCustomerCreditCard (c : stripe.Card) : CustomerCreditCard :=
  let customerCreditCard : CustomerCreditCard :=
    { CustomerName := c.Name, CreditCardID := c.ID, MaskedNumber := c.Last4,
      ExpMonth := c.ExpMonth, ExpYear := c.ExpYear, Brand := c.Brand }
  match c.Customer with
  | some customer => { customerCreditCard with CustomerID := customer.ID }
  | none => customerCreditCard

/-- The `for iter.Next()` loop of `ListCreditCards`, over the cards the iterator
yields: each round appends one descriptor to the response. -/
def listCreditCardsLoop : List stripe.Card → ListCreditCardsResponse → ListCreditCardsResponse
  | [], resp => resp
  | c :: rest, resp =>
    listCreditCardsLoop rest { resp with CreditCards := resp.CreditCards ++ [toCustomerCreditCard c] }

/-- `ListCreditCards` lists the stored cards of a customer. -/
def ListCreditCards (p : stripe.Provider) (listCreditCardsParams : ListCreditCardsParams) :
    (ListCreditCardsResponse × Option Error) × List stripe.Request :=
  let req : stripe.CardListParams := { Customer := some listCreditCardsParams.CustomerID }
  let (cards, err) := p.cardList req
  ((listCreditCardsLoop cards {}, err), [stripe.Request.cardList req])

end Stripe

/-! ## Sample providers and inputs, and the predicates of the statements -/

open gomerchant

/-- A provider that accepts everything: token `tok_1`, charge `ch_1` (20000
minor units, USD, not captured), no error anywhere, two stored cards. -/
def acceptingProvider : stripe.Provider where
  tokenNew := fun _ => ({ ID := "tok_1" }, none)
  chargeNew := fun _ => (some { ID := "ch_1", Amount := 20000, Currency := "usd" }, none)
  chargeGet := fun id => ({ ID := id, Amount := 20000, Currency := "usd" }, none)
  chargeCapture := fun _ _ => none
  refundNew := fun _ => none
  cardList := fun _ =>
    ([{ ID := "card_1", Last4 := "4076", ExpMonth := 1, ExpYear := 2027, Brand := "JCB" },
      { ID := "card_2", Last4 := "5820", ExpMonth := 12, ExpYear := 2028, Brand := "MasterCard",
        Customer := some { ID := "cus_1" } }], none)

/-- A provider every call of which fails: the records it returns are the zero
records the SDK hands back next to an error. -/
def failingProvider : stripe.Provider where
  tokenNew := fun _ => ({}, some (Error.ErrProvider "card_declined"))
  chargeNew := fun _ => (some {}, some (Error.ErrProvider "card_declined"))
  chargeGet := fun _ => ({}, some (Error.ErrProvider "resource_missing"))
  chargeCapture := fun _ _ => some (Error.ErrProvider "charge_already_captured")
  refundNew := fun _ => some (Error.ErrProvider "charge_already_refunded")
  cardList := fun _ => ([], some (Error.ErrProvider "resource_missing"))

/-- A provider that knows one charge: `charge.New` and `charge.Get` return the
given charge record, and no call fails. -/
def providerWithCharge (c : stripe.Charge) : stripe.Provider where
  tokenNew := fun _ => ({ ID := "tok_1" }, none)
  chargeNew := fun _ => (some c, none)
  chargeGet := fun _ => (c, none)
  chargeCapture := fun _ _ => none
  refundNew := fun _ => none
  cardList := fun _ => ([], none)

/-- A charge record the provider reports as captured, paid and fully refunded. -/
def refundedCharge : stripe.Charge :=
  { ID := "ch_1", Amount := 20000, AmountRefunded := 20000, Currency := "usd",
    Captured := true, Paid := true, Refunded := true }

/-- A raw card, the one of the repository's tests. -/
def jcbCard : CreditCard :=
  { Name := "JCB Card", Number := "3580876521284076", ExpMonth := 1, ExpYear := 2027, CVC := "123" }

/-- A billing address with two distinct address lines. -/
def sampleAddress : Address :=
  { Address1 := "1 Main St", Address2 := "Apt 2", City := "Springfield", State := "IL",
    ZIP := "62701", Country := "US" }

/-- An Authorize request in the given currency with the given payment method. -/
def sampleParams (currency : String) (pm : Option PaymentMethod) : AuthorizeParams :=
  { Currency := currency, OrderID := "order-1", Description := "an order", Customer := "",
    BillingAddress := some sampleAddress, PaymentMethod := pm }

/-- A charge record at the edge of `int64`: the largest amount, and a negative
amount_refunded. -/
def overflowCharge : stripe.Charge :=
  { ID := "ch_1", Amount := 9223372036854775807, AmountRefunded := -1 }

/-- A captured, paid charge of 20000 minor units in the given currency. -/
def capturedCharge (currency : String) : stripe.Charge :=
  { ID := "ch_1", Amount := 20000, Currency := currency, Captured := true, Paid := true }

/-- The charge parameters `Authorize` has built when it reaches the payment
method: scaled amount, currency, description and the order-id metadata. -/
def baseChargeParams (amount : Nat) (params : AuthorizeParams) : stripe.ChargeParams :=
  { Amount := some (int64 (uint64 (amount * 100) : Nat)), Currency := some params.Currency,
    Description := some params.Description, Metadata := [("order_id", params.OrderID)] }

/-- A payment method that is only a saved card. -/
def savedCardOnly (customerID creditCardID : String) : PaymentMethod :=
  { CreditCard := none,
    SavedCreditCard := some { CustomerID := customerID, CreditCardID := creditCardID } }

/-- A payment method that is only a raw card. -/
def rawCardOnly : PaymentMethod :=
  { CreditCard := some jcbCard, SavedCreditCard := none }

/-- A payment method with neither a raw card nor a saved card. -/
def noCard : PaymentMethod := { CreditCard := none, SavedCreditCard := none }

/-- A payment method with both a raw card and a saved card. -/
def bothCards : PaymentMethod :=
  { CreditCard := some jcbCard,
    SavedCreditCard := some { CustomerID := "cus_1", CreditCardID := "card_1" } }

/-- The outcomes of the SDK's `charge.New`: a charge with a non-empty id and no
error, or an error next to no charge or to the zero charge (empty id). -/
def chargeNewExclusive (p : stripe.Provider) : Prop :=
  ∀ cp : stripe.ChargeParams,
    match p.chargeNew cp with
    | (some charge, none) => charge.ID ≠ ""
    | (some charge, some _) => charge.ID = ""
    | (none, some _) => True
    | (none, none) => False

/-! ## Machine-integer lemmas -/

theorem uint64_of_lt {n : Nat} (h : n < 2 ^ 64) : uint64 n = n := by
  unfold uint64
  exact Nat.mod_eq_of_lt h

theorem int64_of_range {z : Int} (h₁ : -2 ^ 63 ≤ z) (h₂ : z < 2 ^ 63) : int64 z = z := by
  unfold int64
  rw [Int.emod_eq_of_lt (by omega) (by omega)]
  omega

theorem int64_lower (z : Int) : -2 ^ 63 ≤ int64 z := by
  unfold int64
  have := Int.emod_nonneg (z + 2 ^ 63) (show (2 : Int) ^ 64 ≠ 0 by norm_num)
  omega

theorem int64_upper (z : Int) : int64 z < 2 ^ 63 := by
  unfold int64
  have := Int.emod_lt_of_pos (z + 2 ^ 63) (show (0 : Int) < 2 ^ 64 by norm_num)
  omega

/-- The amount both `Authorize` and `Refund` send for a major-unit amount that
fits: the hard-coded factor 100 applied without wrap-around. -/
theorem scaled_amount_of_fits {a : Nat} (h : 100 * a < 2 ^ 63) :
    int64 (uint64 (a * 100) : Nat) = 100 * (a : Int) := by
  have h64 : a * 100 < 2 ^ 64 := by omega
  rw [uint64_of_lt h64]
  have hz : ((a * 100 : Nat) : Int) = 100 * (a : Int) := by push_cast; ring
  rw [hz]
  apply int64_of_range <;> omega

/-! ## Query -/

theorem Query_fields (p : stripe.Provider) (transactionID : String) :
    (Stripe.Query p transactionID).1.1.Amount
        = int64 ((p.chargeGet transactionID).1.Amount - (p.chargeGet transactionID).1.AmountRefunded)
      ∧ (Stripe.Query p transactionID).1.1.Cancelled = (p.chargeGet transactionID).1.Refunded
      ∧ (Stripe.Query p transactionID).1.2 = (p.chargeGet transactionID).2
      ∧ (Stripe.Query p transactionID).2 = [stripe.Request.chargeGet transactionID] := by
  unfold Stripe.Query
  cases h : (p.chargeGet transactionID).1.Refunded <;> simp [h]

/-- C2: for every provider charge record, whatever its captured, paid, refunded,
amount and amount_refunded, the Transaction that Query builds from it satisfies:
cancelled implies not paid and not captured. -/
theorem Query_cancelled_implies_not_paid_not_captured (p : stripe.Provider)
    (transactionID : String) (h : (Stripe.Query p transactionID).1.1.Cancelled = true) :
    (Stripe.Query p transactionID).1.1.Paid = false
      ∧ (Stripe.Query p transactionID).1.1.Captured = false := by
  unfold Stripe.Query at h ⊢
  cases hr : (p.chargeGet transactionID).1.Refunded <;> simp_all

/-- Witness of C2: a charge the provider reports as captured, paid and refunded
is cancelled, so Query reports it neither paid nor captured. -/
theorem Query_cancelled_implies_not_paid_not_captured_witness :
    (Stripe.Query (providerWithCharge refundedCharge) "ch_1").1.1.Cancelled = true
      ∧ (Stripe.Query (providerWithCharge refundedCharge) "ch_1").1.1.Paid = false
      ∧ (Stripe.Query (providerWithCharge refundedCharge) "ch_1").1.1.Captured = false :=
  ⟨rfl, Query_cancelled_implies_not_paid_not_captured _ "ch_1" rfl⟩

/-- C8, as stated, fails: on the record with amount 2^63 - 1 and amount_refunded
-1 the 64-bit subtraction of Query wraps, and the Transaction's amount is -2^63,
not amount - amount_refunded = 2^63. -/
theorem Query_amount_wraps :
    (Stripe.Query (providerWithCharge overflowCharge) "ch_1").1.1.Amount = -9223372036854775808
      ∧ (Stripe.Query (providerWithCharge overflowCharge) "ch_1").1.1.Amount
          ≠ overflowCharge.Amount - overflowCharge.AmountRefunded := by
  constructor <;> simp [Stripe.Query, providerWithCharge, overflowCharge, int64]

/-- C8, amended: for every provider charge record c whose difference
c.amount - c.amount_refunded fits a signed 64-bit integer, the Transaction
returned by Query has amount = c.amount - c.amount_refunded and
cancelled = c.refunded; and when c.refunded is false, paid and captured equal
c.paid and c.captured unchanged. -/
theorem Query_field_mapping (p : stripe.Provider) (transactionID : String)
    (hlo : -2 ^ 63 ≤ (p.chargeGet transactionID).1.Amount - (p.chargeGet transactionID).1.AmountRefunded)
    (hhi : (p.chargeGet transactionID).1.Amount - (p.chargeGet transactionID).1.AmountRefunded < 2 ^ 63) :
    (Stripe.Query p transactionID).1.1.Amount
        = (p.chargeGet transactionID).1.Amount - (p.chargeGet transactionID).1.AmountRefunded
      ∧ (Stripe.Query p transactionID).1.1.Cancelled = (p.chargeGet transactionID).1.Refunded
      ∧ ((p.chargeGet transactionID).1.Refunded = false →
          (Stripe.Query p transactionID).1.1.Paid = (p.chargeGet transactionID).1.Paid
            ∧ (Stripe.Query p transactionID).1.1.Captured = (p.chargeGet transactionID).1.Captured) := by
  refine ⟨?_, (Query_fields p transactionID).2.1, ?_⟩
  · rw [(Query_fields p transactionID).1]
    exact int64_of_range hlo hhi
  · intro hr
    unfold Stripe.Query
    simp [hr]

/-- Witness of the amended C8: a charge of 20000 minor units of which 5000 were
refunded, captured and paid, not fully refunded, is reported with amount 15000,
not cancelled, paid and captured. -/
theorem Query_field_mapping_witness :
    (Stripe.Query (providerWithCharge { ID := "ch_1", Amount := 20000, AmountRefunded := 5000,
                                        Captured := true, Paid := true }) "ch_1").1.1.Amount = 15000
      ∧ (Stripe.Query (providerWithCharge { ID := "ch_1", Amount := 20000, AmountRefunded := 5000,
                                            Captured := true, Paid := true }) "ch_1").1.1.Cancelled = false
      ∧ (Stripe.Query (providerWithCharge { ID := "ch_1", Amount := 20000, AmountRefunded := 5000,
                                            Captured := true, Paid := true }) "ch_1").1.1.Paid = true
      ∧ (Stripe.Query (providerWithCharge { ID := "ch_1", Amount := 20000, AmountRefunded := 5000,
                                            Captured := true, Paid := true }) "ch_1").1.1.Captured = true := by
  have h := Query_field_mapping
    (providerWithCharge { ID := "ch_1", Amount := 20000, AmountRefunded := 5000,
                          Captured := true, Paid := true }) "ch_1"
    (by simp [providerWithCharge]) (by simp [providerWithCharge])
  refine ⟨?_, h.2.1, (h.2.2 rfl).1, (h.2.2 rfl).2⟩
  rw [h.1]
  simp [providerWithCharge]

/-! ## toStripeToken -/

/-- C7, evaluated at a raw card with the billing address
(1 Main St, Apt 2, Springfield, IL, 62701, US): the token request
`toStripeToken` sends carries address line 1 = "Apt 2", the address's second
line, and no address line 2; city, state, zip and country are forwarded. -/
theorem toStripeToken_address_lines :
    ∃ cp : stripe.CardParams,
      (Stripe.toStripeToken acceptingProvider "" jcbCard (some sampleAddress)).2
          = [stripe.Request.tokenNew { Card := some cp }]
        ∧ cp.AddressLine1 = some "Apt 2" ∧ cp.AddressLine1 ≠ some sampleAddress.Address1
        ∧ cp.AddressLine2 = none ∧ cp.AddressLine2 ≠ some sampleAddress.Address2
        ∧ cp.AddressCity = some "Springfield" ∧ cp.AddressState = some "IL"
        ∧ cp.AddressZip = some "62701" ∧ cp.AddressCountry = some "US" := by
  refine ⟨_, rfl, ?_⟩
  simp [sampleAddress]

/-! ## ListCreditCards -/

theorem listCreditCardsLoop_eq (cards : List stripe.Card) (resp : ListCreditCardsResponse) :
    (Stripe.listCreditCardsLoop cards resp).CreditCards
      = resp.CreditCards ++ cards.map Stripe.toCustomerCreditCard := by
  induction cards generalizing resp with
  | nil => simp [Stripe.listCreditCardsLoop]
  | cons c rest ih => simp [Stripe.listCreditCardsLoop, ih]

theorem toCustomerCreditCard_fields (c : stripe.Card) :
    (Stripe.toCustomerCreditCard c).CreditCardID = c.ID
      ∧ (Stripe.toCustomerCreditCard c).MaskedNumber = c.Last4
      ∧ (Stripe.toCustomerCreditCard c).ExpMonth = c.ExpMonth
      ∧ (Stripe.toCustomerCreditCard c).ExpYear = c.ExpYear
      ∧ (Stripe.toCustomerCreditCard c).Brand = c.Brand := by
  unfold Stripe.toCustomerCreditCard
  cases c.Customer <;> simp

/-- C10: for every finite sequence of cards the provider iterator yields,
ListCreditCards returns a list of the same length whose i-th descriptor is
built from the i-th provider card: same credit-card-id, last-4, expiry month,
expiry year and brand. -/
theorem ListCreditCards_preserves_order (p : stripe.Provider)
    (listCreditCardsParams : ListCreditCardsParams) (i : Nat) :
    (Stripe.ListCreditCards p listCreditCardsParams).1.1.CreditCards.length
        = (p.cardList { Customer := some listCreditCardsParams.CustomerID }).1.length
      ∧ (Stripe.ListCreditCards p listCreditCardsParams).1.1.CreditCards[i]?
          = ((p.cardList { Customer := some listCreditCardsParams.CustomerID }).1[i]?).map
              Stripe.toCustomerCreditCard
      ∧ ∀ c : stripe.Card,
          (Stripe.toCustomerCreditCard c).CreditCardID = c.ID
            ∧ (Stripe.toCustomerCreditCard c).MaskedNumber = c.Last4
            ∧ (Stripe.toCustomerCreditCard c).ExpMonth = c.ExpMonth
            ∧ (Stripe.toCustomerCreditCard c).ExpYear = c.ExpYear
            ∧ (Stripe.toCustomerCreditCard c).Brand = c.Brand := by
  have h : (Stripe.ListCreditCards p listCreditCardsParams).1.1.CreditCards
      = (p.cardList { Customer := some listCreditCardsParams.CustomerID }).1.map
          Stripe.toCustomerCreditCard := by
    unfold Stripe.ListCreditCards
    simp [listCreditCardsLoop_eq]
  refine ⟨?_, ?_, toCustomerCreditCard_fields⟩
  · rw [h, List.length_map]
  · rw [h, List.getElem?_map]

/-! ## Refund -/

theorem Refund_of_Query (p : stripe.Provider) (transactionID : String) (amount : Nat)
    (params : RefundParams) (t : Transaction) (hq : (Stripe.Query p transactionID).1 = (t, none)) :
    Stripe.Refund p transactionID amount params =
      if t.Captured then
        (({ TransactionID := transactionID },
            p.refundNew { Charge := some transactionID,
                          Amount := some (int64 (uint64 (amount * 100) : Nat)) }),
          [stripe.Request.chargeGet transactionID,
           stripe.Request.refundNew { Charge := some transactionID,
                                      Amount := some (int64 (uint64 (amount * 100) : Nat)) }])
      else
        (({ TransactionID := transactionID },
            p.chargeCapture transactionID
              (some { Amount := some (int64 (int64 (t.Amount - int64 (uint64 (amount * 100) : Nat)))) })),
          [stripe.Request.chargeGet transactionID,
           stripe.Request.chargeCapture transactionID
              (some { Amount := some (int64 (int64 (t.Amount - int64 (uint64 (amount * 100) : Nat)))) })]) := by
  have hs := (Query_fields p transactionID).2.2.2
  unfold Stripe.Refund
  rcases h : Stripe.Query p transactionID with ⟨⟨t', err⟩, sent⟩
  rw [h] at hq hs
  simp only [Prod.mk.injEq] at hq
  obtain ⟨rfl, rfl⟩ := hq
  simp only at hs
  subst hs
  by_cases hc : t'.Captured = true <;> simp [hc]

theorem Query_amount_range (p : stripe.Provider) (transactionID : String) :
    -2 ^ 63 ≤ (Stripe.Query p transactionID).1.1.Amount
      ∧ (Stripe.Query p transactionID).1.1.Amount < 2 ^ 63 := by
  rw [(Query_fields p transactionID).1]
  exact ⟨int64_lower _, int64_upper _⟩

/-- C3: for every transaction whose Query reports (with no error) captured =
false and the minor-unit amount A, and every refund amount r with 100*r <= A,
Refund(T, r) sends, after the query, exactly one capture request for T, whose
amount is A - 100*r, and sends no refund request. -/
theorem Refund_uncaptured_partial_capture (p : stripe.Provider) (transactionID : String)
    (r : Nat) (params : RefundParams) (t : Transaction)
    (hq : (Stripe.Query p transactionID).1 = (t, none)) (hc : t.Captured = false)
    (hle : 100 * (r : Int) ≤ t.Amount) :
    (Stripe.Refund p transactionID r params).2
      = [stripe.Request.chargeGet transactionID,
         stripe.Request.chargeCapture transactionID (some { Amount := some (t.Amount - 100 * (r : Int)) })] := by
  have hr := Query_amount_range p transactionID
  rw [hq] at hr
  simp only at hr
  have hfit : 100 * r < 2 ^ 63 := by omega
  rw [Refund_of_Query p transactionID r params t hq, scaled_amount_of_fits hfit]
  have h1 : int64 (t.Amount - 100 * (r : Int)) = t.Amount - 100 * (r : Int) :=
    int64_of_range (by omega) (by omega)
  simp [hc, h1]

/-- Witness of C3 (scenario 5): a charge authorized for 200 USD, 20000 minor
units, and not captured; Refund of 50 sends one capture request of 15000 minor
units, 150 USD, and no refund request. -/
theorem Refund_uncaptured_partial_capture_witness :
    (Stripe.Refund acceptingProvider "ch_1" 50 {}).2
      = [stripe.Request.chargeGet "ch_1",
         stripe.Request.chargeCapture "ch_1" (some { Amount := some 15000 })] :=
  Refund_uncaptured_partial_capture acceptingProvider "ch_1" 50 {}
    { ID := "ch_1", Amount := 20000, Currency := "usd", Captured := false, Paid := false,
      Cancelled := false, Status := "", CreatedAt := some 0 }
    (by simp [Stripe.Query, acceptingProvider, int64]) rfl (by norm_num)

/-- C4, as stated, fails twice.  On a captured USD charge the refund amount
r = 184467440737095517 makes the 64-bit product r * 100 wrap around: the refund
request carries the amount 84, not 100*r.  On a captured JPY charge, whose
currency factor is 1, Refund(T, 50) sends a refund request of 5000, not 50:
the factor 100 is applied whatever the currency. -/
theorem Refund_captured_amount_mismatch :
    ((Stripe.Refund (providerWithCharge (capturedCharge "usd")) "ch_1" 184467440737095517 {}).2
        = [stripe.Request.chargeGet "ch_1",
           stripe.Request.refundNew { Charge := some "ch_1", Amount := some 84 }]
      ∧ (84 : Int) ≠ 100 * 184467440737095517)
    ∧ ((Stripe.Query (providerWithCharge (capturedCharge "jpy")) "ch_1").1.1.Currency = "jpy"
      ∧ (Stripe.Refund (providerWithCharge (capturedCharge "jpy")) "ch_1" 50 {}).2
        = [stripe.Request.chargeGet "ch_1",
           stripe.Request.refundNew { Charge := some "ch_1", Amount := some 5000 }]
      ∧ (5000 : Int) ≠ 50 * 1) := by
  refine ⟨⟨?_, by norm_num⟩, ?_, ?_, by norm_num⟩ <;>
    simp [Stripe.Refund, Stripe.Query, providerWithCharge, capturedCharge, int64, uint64]

/-- C4, amended: for every transaction whose Query succeeds and reports
captured = true with currency USD (usd), and every refund amount r with
100*r < 2^63, Refund(T, r) sends, after the query, exactly one refund request
for charge T, whose amount is 100*r, and sends no capture request; the response
carries T and the error of the refund call. -/
theorem Refund_captured_refunds (p : stripe.Provider) (transactionID : String)
    (r : Nat) (params : RefundParams) (t : Transaction)
    (hq : (Stripe.Query p transactionID).1 = (t, none)) (hc : t.Captured = true)
    (_husd : t.Currency = "usd" ∨ t.Currency = "USD") (hfit : 100 * r < 2 ^ 63) :
    Stripe.Refund p transactionID r params
      = (({ TransactionID := transactionID },
            p.refundNew { Charge := some transactionID, Amount := some (100 * (r : Int)) }),
          [stripe.Request.chargeGet transactionID,
           stripe.Request.refundNew { Charge := some transactionID, Amount := some (100 * (r : Int)) }]) := by
  rw [Refund_of_Query p transactionID r params t hq, scaled_amount_of_fits hfit]
  simp [hc]

/-- Witness of the amended C4: on a captured USD charge, Refund of 50 sends one
refund request of 5000 minor units. -/
theorem Refund_captured_refunds_witness :
    Stripe.Refund (providerWithCharge (capturedCharge "usd")) "ch_1" 50 {}
      = (({ TransactionID := "ch_1" }, none),
          [stripe.Request.chargeGet "ch_1",
           stripe.Request.refundNew { Charge := some "ch_1", Amount := some 5000 }]) :=
  Refund_captured_refunds (providerWithCharge (capturedCharge "usd")) "ch_1" 50 {}
    { ID := "ch_1", Amount := 20000, Currency := "usd", Captured := true, Paid := true,
      Cancelled := false, Status := "", CreatedAt := some 0 }
    (by simp [Stripe.Query, providerWithCharge, capturedCharge, int64]) rfl (Or.inl rfl) (by norm_num)

/-! ## Authorize -/

theorem authorizeCharge_sent (p : stripe.Provider) (cp : stripe.ChargeParams)
    (sent : List stripe.Request) :
    (Stripe.authorizeCharge p cp sent).2 = sent ++ [stripe.Request.chargeNew cp] := by
  unfold Stripe.authorizeCharge
  split <;> rfl

theorem authorizeCharge_result (p : stripe.Provider) (cp : stripe.ChargeParams)
    (sent : List stripe.Request) :
    (Stripe.authorizeCharge p cp sent).1
      = (match (p.chargeNew cp).1 with
          | some charge => { TransactionID := charge.ID }
          | none => {},
         (p.chargeNew cp).2) := by
  unfold Stripe.authorizeCharge
  split <;> rename_i h <;> simp [h]

theorem authorizeSavedCreditCard_keeps (pm : PaymentMethod) (cp : stripe.ChargeParams) :
    (Stripe.authorizeSavedCreditCard pm cp).Amount = cp.Amount
      ∧ (Stripe.authorizeSavedCreditCard pm cp).Currency = cp.Currency := by
  unfold Stripe.authorizeSavedCreditCard stripe.ChargeParams.SetSource
  split
  · split <;> simp
  · simp

theorem authorizeSavedCreditCard_none (pm : PaymentMethod) (cp : stripe.ChargeParams)
    (h : pm.SavedCreditCard = none) : Stripe.authorizeSavedCreditCard pm cp = cp := by
  unfold Stripe.authorizeSavedCreditCard
  simp [h]

theorem authorizeSavedCreditCard_some (pm : PaymentMethod) (cp : stripe.ChargeParams)
    (saved : SavedCreditCard) (h : pm.SavedCreditCard = some saved) :
    (Stripe.authorizeSavedCreditCard pm cp).Source = some { Token := some saved.CreditCardID }
      ∧ (Stripe.authorizeSavedCreditCard pm cp).Customer
          = if saved.CustomerID.length > 0 then some saved.CustomerID else cp.Customer := by
  unfold Stripe.authorizeSavedCreditCard stripe.ChargeParams.SetSource
  simp only [h]
  split <;> simp

theorem Authorize_no_method (p : stripe.Provider) (amount : Nat) (params : AuthorizeParams)
    (h : params.PaymentMethod = none) :
    Stripe.Authorize p amount params
      = Stripe.authorizeCharge p (baseChargeParams amount params) [] := by
  unfold Stripe.Authorize
  simp [h, baseChargeParams, stripe.ChargeParams.AddMetadata]

theorem Authorize_no_card (p : stripe.Provider) (amount : Nat) (params : AuthorizeParams)
    (pm : PaymentMethod) (h : params.PaymentMethod = some pm) (hcc : pm.CreditCard = none) :
    Stripe.Authorize p amount params
      = Stripe.authorizeCharge p
          (Stripe.authorizeSavedCreditCard pm (baseChargeParams amount params)) [] := by
  unfold Stripe.Authorize
  simp [h, hcc, baseChargeParams, stripe.ChargeParams.AddMetadata]

theorem Authorize_token_failed (p : stripe.Provider) (amount : Nat) (params : AuthorizeParams)
    (pm : PaymentMethod) (cc : CreditCard) (t : stripe.Token) (e : Error)
    (h : params.PaymentMethod = some pm) (hcc : pm.CreditCard = some cc)
    (ht : p.tokenNew (Stripe.toStripeTokenParams params.Customer cc params.BillingAddress)
            = (t, some e)) :
    Stripe.Authorize p amount params
      = (({}, some e),
          [stripe.Request.tokenNew
            (Stripe.toStripeTokenParams params.Customer cc params.BillingAddress)]) := by
  unfold Stripe.Authorize
  simp [h, hcc, Stripe.toStripeToken, ht]

theorem Authorize_token_ok (p : stripe.Provider) (amount : Nat) (params : AuthorizeParams)
    (pm : PaymentMethod) (cc : CreditCard) (t : stripe.Token)
    (h : params.PaymentMethod = some pm) (hcc : pm.CreditCard = some cc)
    (ht : p.tokenNew (Stripe.toStripeTokenParams params.Customer cc params.BillingAddress)
            = (t, none)) :
    Stripe.Authorize p amount params
      = Stripe.authorizeCharge p
          (Stripe.authorizeSavedCreditCard pm
            { baseChargeParams amount params with Source := some { Token := some t.ID } })
          [stripe.Request.tokenNew
            (Stripe.toStripeTokenParams params.Customer cc params.BillingAddress)] := by
  unfold Stripe.Authorize
  simp [h, hcc, Stripe.toStripeToken, ht, baseChargeParams, stripe.ChargeParams.AddMetadata]

/-- Every charge request `Authorize` sends carries the amount times 100, wrapped
to 64 bits, and the currency of the request. -/
theorem Authorize_charge_amount (p : stripe.Provider) (amount : Nat) (params : AuthorizeParams)
    (cp : stripe.ChargeParams)
    (hsent : stripe.Request.chargeNew cp ∈ (Stripe.Authorize p amount params).2) :
    cp.Amount = some (int64 (uint64 (amount * 100) : Nat))
      ∧ cp.Currency = some params.Currency := by
  cases hpm : params.PaymentMethod with
  | none =>
    rw [Authorize_no_method p amount params hpm, authorizeCharge_sent] at hsent
    simp at hsent
    subst hsent
    simp [baseChargeParams]
  | some pm =>
    cases hcc : pm.CreditCard with
    | none =>
      rw [Authorize_no_card p amount params pm hpm hcc, authorizeCharge_sent] at hsent
      simp at hsent
      subst hsent
      simpa [baseChargeParams] using authorizeSavedCreditCard_keeps pm (baseChargeParams amount params)
    | some cc =>
      rcases ht : p.tokenNew (Stripe.toStripeTokenParams params.Customer cc params.BillingAddress)
        with ⟨t, _ | e⟩
      · rw [Authorize_token_ok p amount params pm cc t hpm hcc ht, authorizeCharge_sent] at hsent
        simp at hsent
        subst hsent
        simpa [baseChargeParams] using authorizeSavedCreditCard_keeps pm
          { baseChargeParams amount params with Source := some { Token := some t.ID } }
      · rw [Authorize_token_failed p amount params pm cc t e hpm hcc ht] at hsent
        simp at hsent

/-- C1, as stated, fails twice.  In JPY, Authorize(100) sends a charge request
of 10000, not of the unscaled 100: the factor 100 is applied whatever the
currency.  In USD, the amount a = 184467440737095517 makes the 64-bit product
a * 100 wrap around: the charge request carries 84, not 100*a. -/
theorem Authorize_amount_mismatch :
    (∃ cp : stripe.ChargeParams,
        (Stripe.Authorize acceptingProvider 100
            (sampleParams "JPY" (some (savedCardOnly "cus_1" "card_1")))).2
          = [stripe.Request.chargeNew cp]
        ∧ cp.Currency = some "JPY" ∧ cp.Amount = some 10000 ∧ cp.Amount ≠ some 100)
    ∧ (∃ cp : stripe.ChargeParams,
        (Stripe.Authorize acceptingProvider 184467440737095517
            (sampleParams "USD" (some (savedCardOnly "cus_1" "card_1")))).2
          = [stripe.Request.chargeNew cp]
        ∧ cp.Currency = some "USD" ∧ cp.Amount = some 84
        ∧ cp.Amount ≠ some (100 * 184467440737095517)) := by
  constructor
  · refine ⟨_, rfl, rfl, ?_, ?_⟩ <;>
      simp [int64, uint64, authorizeSavedCreditCard_keeps, stripe.ChargeParams.AddMetadata]
  · refine ⟨_, rfl, rfl, ?_, ?_⟩ <;>
      simp [int64, uint64, authorizeSavedCreditCard_keeps, stripe.ChargeParams.AddMetadata]

/-- C1, amended: for every facade amount a with 100*a < 2^63 and a request
whose currency is USD, every charge request Authorize sends to the provider
carries the amount 100*a and the currency USD. -/
theorem Authorize_amount_USD (p : stripe.Provider) (a : Nat) (params : AuthorizeParams)
    (hfit : 100 * a < 2 ^ 63) (husd : params.Currency = "USD") (cp : stripe.ChargeParams)
    (hsent : stripe.Request.chargeNew cp ∈ (Stripe.Authorize p a params).2) :
    cp.Amount = some (100 * (a : Int)) ∧ cp.Currency = some "USD" := by
  have h := Authorize_charge_amount p a params cp hsent
  rw [scaled_amount_of_fits hfit, husd] at h
  exact h

/-- Witness of the amended C1: Authorize of 200 USD on a raw card sends, after
the token request, a charge request of 20000 minor units in USD. -/
theorem Authorize_amount_USD_witness :
    (∃ cp : stripe.ChargeParams,
        stripe.Request.chargeNew cp
          ∈ (Stripe.Authorize acceptingProvider 200 (sampleParams "USD" (some rawCardOnly))).2)
      ∧ ∀ cp : stripe.ChargeParams,
          stripe.Request.chargeNew cp
            ∈ (Stripe.Authorize acceptingProvider 200 (sampleParams "USD" (some rawCardOnly))).2 →
          cp.Amount = some 20000 ∧ cp.Currency = some "USD" :=
  ⟨⟨_, List.mem_cons_of_mem _ (List.mem_singleton.mpr rfl)⟩,
    fun cp h => Authorize_amount_USD acceptingProvider 200 (sampleParams "USD" (some rawCardOnly))
      (by norm_num) rfl cp h⟩

theorem length_pos_iff_ne_empty (s : String) : s.length > 0 ↔ s ≠ "" := by
  rcases s with ⟨l⟩
  cases l with
  | nil => simp [String.length]
  | cons c cs =>
    simp only [String.length, List.length_cons, gt_iff_lt, Nat.zero_lt_succ, true_iff]
    intro h
    have := congrArg String.data h
    simp at this

/-- C9, as stated, fails: for a saved card whose customer-id is empty, the charge
request Authorize sends has the credit-card-id as source but no customer at all,
not customer = customer-id. -/
theorem Authorize_saved_card_empty_customer :
    ∃ cp : stripe.ChargeParams,
      (Stripe.Authorize acceptingProvider 100
          (sampleParams "USD" (some (savedCardOnly "" "card_1")))).2
        = [stripe.Request.chargeNew cp]
      ∧ cp.Source = some { Token := some "card_1" }
      ∧ cp.Customer = none ∧ cp.Customer ≠ some "" := by
  refine ⟨_, rfl, ?_, ?_, ?_⟩ <;>
    simp [Stripe.authorizeSavedCreditCard, savedCardOnly, stripe.ChargeParams.SetSource,
      stripe.ChargeParams.AddMetadata, String.length]

/-- C9, amended: for every request whose PaymentMethod is only a
SavedCreditCard (customer-id, credit-card-id), Authorize sends exactly one
request, a charge request with source = credit-card-id, with customer =
customer-id when the customer-id is non-empty and with no customer when it is
empty, and no token is created; for every request whose PaymentMethod is only
a raw CreditCard and whose tokenization succeeds with token-id k, Authorize
sends the token request and then one charge request with source = k. -/
theorem Authorize_source_selection (p : stripe.Provider) (amount : Nat)
    (params : AuthorizeParams) (pm : PaymentMethod) (hpm : params.PaymentMethod = some pm) :
    (∀ saved : SavedCreditCard, pm.CreditCard = none → pm.SavedCreditCard = some saved →
      ∃ cp : stripe.ChargeParams,
        (Stripe.Authorize p amount params).2 = [stripe.Request.chargeNew cp]
          ∧ cp.Source = some { Token := some saved.CreditCardID }
          ∧ cp.Customer = if saved.CustomerID = "" then none else some saved.CustomerID)
    ∧ (∀ (cc : CreditCard) (t : stripe.Token), pm.CreditCard = some cc →
        pm.SavedCreditCard = none →
        p.tokenNew (Stripe.toStripeTokenParams params.Customer cc params.BillingAddress)
          = (t, none) →
        ∃ cp : stripe.ChargeParams,
          (Stripe.Authorize p amount params).2
            = [stripe.Request.tokenNew
                (Stripe.toStripeTokenParams params.Customer cc params.BillingAddress),
               stripe.Request.chargeNew cp]
          ∧ cp.Source = some { Token := some t.ID }) := by
  constructor
  · intro saved hcc hsaved
    refine ⟨_, ?_, (authorizeSavedCreditCard_some pm (baseChargeParams amount params) saved hsaved).1, ?_⟩
    · rw [Authorize_no_card p amount params pm hpm hcc, authorizeCharge_sent]
      rfl
    · rw [(authorizeSavedCreditCard_some pm (baseChargeParams amount params) saved hsaved).2]
      by_cases he : saved.CustomerID = ""
      · have : ¬ saved.CustomerID.length > 0 := fun h => (length_pos_iff_ne_empty _).1 h he
        simp [he, baseChargeParams, String.length]
      · have : saved.CustomerID.length > 0 := (length_pos_iff_ne_empty _).2 he
        simp [he, this]
  · intro cc t hcc hsaved ht
    refine ⟨Stripe.authorizeSavedCreditCard pm
      { baseChargeParams amount params with Source := some { Token := some t.ID } }, ?_, ?_⟩
    · rw [Authorize_token_ok p amount params pm cc t hpm hcc ht, authorizeCharge_sent]
      rfl
    · rw [authorizeSavedCreditCard_none pm _ hsaved]

/-- Witness of the amended C9: with the saved card (cus_1, card_1) the only
request is a charge request with source card_1 and customer cus_1; with a raw
card tokenized as tok_1 the charge request that follows the token request has
source tok_1. -/
theorem Authorize_source_selection_witness :
    (∃ cp : stripe.ChargeParams,
        (Stripe.Authorize acceptingProvider 100
            (sampleParams "JPY" (some (savedCardOnly "cus_1" "card_1")))).2
          = [stripe.Request.chargeNew cp]
        ∧ cp.Source = some { Token := some "card_1" } ∧ cp.Customer = some "cus_1")
    ∧ (∃ cp : stripe.ChargeParams,
        (Stripe.Authorize acceptingProvider 100 (sampleParams "JPY" (some rawCardOnly))).2
          = [stripe.Request.tokenNew (Stripe.toStripeTokenParams "" jcbCard (some sampleAddress)),
             stripe.Request.chargeNew cp]
        ∧ cp.Source = some { Token := some "tok_1" }) :=
  ⟨by
    simpa using (Authorize_source_selection acceptingProvider 100
      (sampleParams "JPY" (some (savedCardOnly "cus_1" "card_1"))) (savedCardOnly "cus_1" "card_1")
      rfl).1 { CustomerID := "cus_1", CreditCardID := "card_1" } rfl rfl,
   (Authorize_source_selection acceptingProvider 100
      (sampleParams "JPY" (some rawCardOnly)) rawCardOnly rfl).2 jcbCard { ID := "tok_1" }
      rfl rfl rfl⟩

/-- C6, as stated, fails: with neither card set Authorize sends a charge request
(without source) and returns the provider's charge id and no error; with both
set it sends a token request and a charge request (whose source is the saved
card) and returns the provider's charge id and no error.  Neither call fails
with ErrInvalidRequest, and neither sends nothing. -/
theorem Authorize_accepts_invalid_payment_method :
    ((∃ cp : stripe.ChargeParams,
        Stripe.Authorize acceptingProvider 100 (sampleParams "USD" (some noCard))
          = (({ TransactionID := "ch_1" }, none), [stripe.Request.chargeNew cp])
        ∧ cp.Source = none)
      ∧ (Stripe.Authorize acceptingProvider 100 (sampleParams "USD" (some noCard))).1.2
          ≠ some Error.ErrInvalidRequest
      ∧ (Stripe.Authorize acceptingProvider 100 (sampleParams "USD" (some noCard))).2 ≠ [])
    ∧ ((∃ cp : stripe.ChargeParams,
        Stripe.Authorize acceptingProvider 100 (sampleParams "USD" (some bothCards))
          = (({ TransactionID := "ch_1" }, none),
              [stripe.Request.tokenNew (Stripe.toStripeTokenParams "" jcbCard (some sampleAddress)),
               stripe.Request.chargeNew cp])
        ∧ cp.Source = some { Token := some "card_1" })
      ∧ (Stripe.Authorize acceptingProvider 100 (sampleParams "USD" (some bothCards))).1.2
          ≠ some Error.ErrInvalidRequest
      ∧ (Stripe.Authorize acceptingProvider 100 (sampleParams "USD" (some bothCards))).2 ≠ []) := by
  have h1 : Stripe.Authorize acceptingProvider 100 (sampleParams "USD" (some noCard))
      = (({ TransactionID := "ch_1" }, none),
          [stripe.Request.chargeNew (baseChargeParams 100 (sampleParams "USD" (some noCard)))]) := rfl
  have h2 : Stripe.Authorize acceptingProvider 100 (sampleParams "USD" (some bothCards))
      = (({ TransactionID := "ch_1" }, none),
          [stripe.Request.tokenNew (Stripe.toStripeTokenParams "" jcbCard (some sampleAddress)),
           stripe.Request.chargeNew (Stripe.authorizeSavedCreditCard bothCards
             { baseChargeParams 100 (sampleParams "USD" (some bothCards)) with
               Source := some { Token := some "tok_1" } })]) := rfl
  refine ⟨⟨⟨_, h1, rfl⟩, ?_, ?_⟩, ⟨⟨_, h2, ?_⟩, ?_, ?_⟩⟩
  · rw [h1]; simp
  · rw [h1]; simp
  · simp [Stripe.authorizeSavedCreditCard, bothCards, stripe.ChargeParams.SetSource]
  · rw [h2]; simp
  · rw [h2]; simp

/-- C6, amended: Authorize does not validate the payment method.  For every
request whose PaymentMethod has neither CreditCard nor SavedCreditCard set,
Authorize sends exactly one request, a charge request without source, and
returns the error of that call.  For every request whose PaymentMethod has both
set, Authorize sends a token request; when tokenization fails it returns the
tokenization error with an empty response and sends nothing more; when it
succeeds Authorize sends one charge request, whose source is the saved
credit-card-id, and returns the error of that call. -/
theorem Authorize_without_validation (p : stripe.Provider) (amount : Nat)
    (params : AuthorizeParams) (pm : PaymentMethod) (hpm : params.PaymentMethod = some pm) :
    (pm.CreditCard = none → pm.SavedCreditCard = none →
      (Stripe.Authorize p amount params).2
          = [stripe.Request.chargeNew (baseChargeParams amount params)]
        ∧ (baseChargeParams amount params).Source = none
        ∧ (Stripe.Authorize p amount params).1.2
            = (p.chargeNew (baseChargeParams amount params)).2)
    ∧ (∀ (cc : CreditCard) (saved : SavedCreditCard) (t : stripe.Token),
        pm.CreditCard = some cc → pm.SavedCreditCard = some saved →
        (∀ e : Error,
          p.tokenNew (Stripe.toStripeTokenParams params.Customer cc params.BillingAddress)
            = (t, some e) →
          Stripe.Authorize p amount params
            = (({}, some e),
                [stripe.Request.tokenNew
                  (Stripe.toStripeTokenParams params.Customer cc params.BillingAddress)]))
        ∧ (p.tokenNew (Stripe.toStripeTokenParams params.Customer cc params.BillingAddress)
              = (t, none) →
            ∃ cp : stripe.ChargeParams,
              (Stripe.Authorize p amount params).2
                  = [stripe.Request.tokenNew
                      (Stripe.toStripeTokenParams params.Customer cc params.BillingAddress),
                     stripe.Request.chargeNew cp]
                ∧ cp.Source = some { Token := some saved.CreditCardID }
                ∧ (Stripe.Authorize p amount params).1.2 = (p.chargeNew cp).2)) := by
  constructor
  · intro hcc hsaved
    rw [Authorize_no_card p amount params pm hpm hcc, authorizeSavedCreditCard_none pm _ hsaved,
      authorizeCharge_sent, authorizeCharge_result]
    exact ⟨rfl, rfl, rfl⟩
  · intro cc saved t hcc hsaved
    constructor
    · intro e ht
      exact Authorize_token_failed p amount params pm cc t e hpm hcc ht
    · intro ht
      refine ⟨Stripe.authorizeSavedCreditCard pm
        { baseChargeParams amount params with Source := some { Token := some t.ID } }, ?_,
        (authorizeSavedCreditCard_some pm _ saved hsaved).1, ?_⟩
      · rw [Authorize_token_ok p amount params pm cc t hpm hcc ht, authorizeCharge_sent]
        rfl
      · rw [Authorize_token_ok p amount params pm cc t hpm hcc ht, authorizeCharge_result]

/-- Witness of the amended C6: with neither card set the accepting provider is
sent one charge request without source and no error comes back; with both set
and a provider that rejects the card at tokenization, Authorize returns that
error with an empty response after the token request alone. -/
theorem Authorize_without_validation_witness :
    ((Stripe.Authorize acceptingProvider 100 (sampleParams "USD" (some noCard))).2
        = [stripe.Request.chargeNew (baseChargeParams 100 (sampleParams "USD" (some noCard)))]
      ∧ (baseChargeParams 100 (sampleParams "USD" (some noCard))).Source = none
      ∧ (Stripe.Authorize acceptingProvider 100 (sampleParams "USD" (some noCard))).1.2 = none)
    ∧ Stripe.Authorize failingProvider 100 (sampleParams "USD" (some bothCards))
        = (({}, some (Error.ErrProvider "card_declined")),
            [stripe.Request.tokenNew (Stripe.toStripeTokenParams "" jcbCard (some sampleAddress))]) :=
  ⟨(Authorize_without_validation acceptingProvider 100 (sampleParams "USD" (some noCard)) noCard
      rfl).1 rfl rfl,
   ((Authorize_without_validation failingProvider 100 (sampleParams "USD" (some bothCards))
      bothCards rfl).2 jcbCard { CustomerID := "cus_1", CreditCardID := "card_1" } {} rfl rfl).1
      (Error.ErrProvider "card_declined") rfl⟩

/-! ## Response envelopes -/

theorem Refund_response (p : stripe.Provider) (transactionID : String) (amount : Nat)
    (params : RefundParams) :
    (Stripe.Refund p transactionID amount params).1.1 = { TransactionID := transactionID } := by
  unfold Stripe.Refund
  split
  split
  · split <;> rfl
  · rfl

/-- C5, as stated, fails: CompleteAuthorize returns an empty response with a nil
error; and when the provider call fails, Capture, Refund and Void return the
non-empty transaction-id they were given together with the non-nil error.  None
of the four results is a non-empty transaction-id with a nil error or an empty
response with a non-nil error. -/
theorem envelope_not_exclusive :
    ((Stripe.CompleteAuthorize acceptingProvider "pay_1" {}).1 = ({}, none)
      ∧ ¬ (((Stripe.CompleteAuthorize acceptingProvider "pay_1" {}).1.1.TransactionID ≠ ""
              ∧ (Stripe.CompleteAuthorize acceptingProvider "pay_1" {}).1.2 = none)
            ∨ ((Stripe.CompleteAuthorize acceptingProvider "pay_1" {}).1.1 = {}
              ∧ (Stripe.CompleteAuthorize acceptingProvider "pay_1" {}).1.2 ≠ none)))
    ∧ ((Stripe.Capture failingProvider "ch_1" {}).1
          = ({ TransactionID := "ch_1" }, some (Error.ErrProvider "charge_already_captured"))
      ∧ ¬ (((Stripe.Capture failingProvider "ch_1" {}).1.1.TransactionID ≠ ""
              ∧ (Stripe.Capture failingProvider "ch_1" {}).1.2 = none)
            ∨ ((Stripe.Capture failingProvider "ch_1" {}).1.1 = {}
              ∧ (Stripe.Capture failingProvider "ch_1" {}).1.2 ≠ none)))
    ∧ ((Stripe.Refund failingProvider "ch_1" 50 {}).1
          = ({ TransactionID := "ch_1" }, some (Error.ErrProvider "resource_missing"))
      ∧ ¬ (((Stripe.Refund failingProvider "ch_1" 50 {}).1.1.TransactionID ≠ ""
              ∧ (Stripe.Refund failingProvider "ch_1" 50 {}).1.2 = none)
            ∨ ((Stripe.Refund failingProvider "ch_1" 50 {}).1.1 = {}
              ∧ (Stripe.Refund failingProvider "ch_1" 50 {}).1.2 ≠ none)))
    ∧ ((Stripe.Void failingProvider "ch_1" {}).1
          = ({ TransactionID := "ch_1" }, some (Error.ErrProvider "charge_already_refunded"))
      ∧ ¬ (((Stripe.Void failingProvider "ch_1" {}).1.1.TransactionID ≠ ""
              ∧ (Stripe.Void failingProvider "ch_1" {}).1.2 = none)
            ∨ ((Stripe.Void failingProvider "ch_1" {}).1.1 = {}
              ∧ (Stripe.Void failingProvider "ch_1" {}).1.2 ≠ none))) := by
  refine ⟨⟨rfl, ?_⟩, ⟨rfl, ?_⟩, ⟨rfl, ?_⟩, ⟨rfl, ?_⟩⟩
  · simp [Stripe.CompleteAuthorize]
  · simp [Stripe.Capture, failingProvider]
    decide
  · simp [Stripe.Refund, Stripe.Query, failingProvider]
    decide
  · simp [Stripe.Void, failingProvider]
    decide

/-- C5, amended: CompleteAuthorize always returns an empty response with a nil
error and sends nothing.  Capture, Refund and Void always return the
transaction-id they were given, whether the error is nil or not; the error of
Capture and of Void is the error of their provider call.  Authorize, against a
provider whose charge call returns either a charge with a non-empty id and no
error, or an error with no charge or the zero charge, returns either a
non-empty transaction-id with a nil error or an empty response with a non-nil
error. -/
theorem envelope_results (p : stripe.Provider) (hp : chargeNewExclusive p) (amount : Nat)
    (params : AuthorizeParams) (transactionID : String) (refundAmount : Nat)
    (completeParams : CompleteAuthorizeParams) (captureParams : CaptureParams)
    (refundParams : RefundParams) (voidParams : VoidParams) :
    (((Stripe.Authorize p amount params).1.1.TransactionID ≠ ""
          ∧ (Stripe.Authorize p amount params).1.2 = none)
        ∨ ((Stripe.Authorize p amount params).1.1 = {}
          ∧ (Stripe.Authorize p amount params).1.2 ≠ none))
    ∧ Stripe.CompleteAuthorize p transactionID completeParams = (({}, none), [])
    ∧ (Stripe.Capture p transactionID captureParams).1
        = ({ TransactionID := transactionID }, p.chargeCapture transactionID none)
    ∧ (Stripe.Refund p transactionID refundAmount refundParams).1.1
        = { TransactionID := transactionID }
    ∧ (Stripe.Void p transactionID voidParams).1
        = ({ TransactionID := transactionID }, p.refundNew { Charge := some transactionID }) := by
  refine ⟨?_, rfl, rfl, Refund_response p transactionID refundAmount refundParams, rfl⟩
  have key : ∀ (cp : stripe.ChargeParams) (sent : List stripe.Request),
      ((Stripe.authorizeCharge p cp sent).1.1.TransactionID ≠ ""
          ∧ (Stripe.authorizeCharge p cp sent).1.2 = none)
        ∨ ((Stripe.authorizeCharge p cp sent).1.1 = {}
          ∧ (Stripe.authorizeCharge p cp sent).1.2 ≠ none) := by
    intro cp sent
    have h := hp cp
    rw [authorizeCharge_result]
    rcases hc : p.chargeNew cp with ⟨_ | charge, _ | e⟩ <;> rw [hc] at h <;> simp at h <;> simp [h]
  cases hpm : params.PaymentMethod with
  | none => rw [Authorize_no_method p amount params hpm]; exact key _ _
  | some pm =>
    cases hcc : pm.CreditCard with
    | none => rw [Authorize_no_card p amount params pm hpm hcc]; exact key _ _
    | some cc =>
      rcases ht : p.tokenNew (Stripe.toStripeTokenParams params.Customer cc params.BillingAddress)
        with ⟨t, _ | e⟩
      · rw [Authorize_token_ok p amount params pm cc t hpm hcc ht]; exact key _ _
      · rw [Authorize_token_failed p amount params pm cc t e hpm hcc ht]
        right
        simp

/-- Witness of the amended C5, at the accepting provider: Authorize returns the
charge id ch_1 with a nil error, CompleteAuthorize an empty response with a nil
error, Capture, Refund and Void the transaction-id they were given. -/
theorem envelope_results_witness :
    (((Stripe.Authorize acceptingProvider 100 (sampleParams "USD" (some rawCardOnly))).1.1.TransactionID ≠ ""
          ∧ (Stripe.Authorize acceptingProvider 100 (sampleParams "USD" (some rawCardOnly))).1.2 = none)
        ∨ ((Stripe.Authorize acceptingProvider 100 (sampleParams "USD" (some rawCardOnly))).1.1 = {}
          ∧ (Stripe.Authorize acceptingProvider 100 (sampleParams "USD" (some rawCardOnly))).1.2 ≠ none))
    ∧ Stripe.CompleteAuthorize acceptingProvider "ch_1" {} = (({}, none), [])
    ∧ (Stripe.Capture acceptingProvider "ch_1" {}).1 = ({ TransactionID := "ch_1" }, none)
    ∧ (Stripe.Refund acceptingProvider "ch_1" 50 {}).1.1 = { TransactionID := "ch_1" }
    ∧ (Stripe.Void acceptingProvider "ch_1" {}).1 = ({ TransactionID := "ch_1" }, none) :=
  envelope_results acceptingProvider (fun _ => by simp [acceptingProvider])
    100 (sampleParams "USD" (some rawCardOnly)) "ch_1" 50 {} {} {} {}
